import Mathlib

/-
Shallow embedding of src/optional.h: a generic `Optional<T>` holding zero or
one `T` inline (`alignas(T) char data_[sizeof(T)]`), a cached pointer
`value_ptr_` into that buffer, and a presence flag `is_initialized_`.

Modelling conventions:
* The raw buffer `data_` together with `value_ptr_` is modelled as a single
  field `data_ : Option T`: `some v` when the buffer holds a live,
  fully-constructed `T` of value `v` (and `value_ptr_` points at it),
  `none` when no live object occupies the buffer (and `value_ptr_` is null).
* Dereferencing `*value_ptr_` is `deref`; on a state with no live object this
  is undefined behaviour in C++, modelled by the junk value `default`.
* Each mutating member function returns the new state together with the list
  of element-lifecycle events it performs on `T` (constructions by kind,
  assignments by kind, destructor calls), so that "exactly one destruction",
  "no intermediate temporary", "uses T's assignment operator" are statable.
* Exception propagation out of `T`'s copy/move constructor or assignment is
  modelled in a second, `Except`-valued family (suffix `E`): the error case
  carries the state of the `Optional`'s members at the moment the exception
  escapes the member function.
-/

namespace Spec2Proof

/-- `class BadOptionalAccess : public std::exception` — the exception type
thrown by checked access on an empty `Optional` (src/optional.h lines 5-12).
It carries no payload. -/
structure BadOptionalAccess where
  deriving Repr, DecidableEq, Inhabited

/-- `what()` of `BadOptionalAccess` (src/optional.h line 9-11). -/
def BadOptionalAccess.what (_ : BadOptionalAccess) : String :=
  "Bad optional access"

/-- Element-lifecycle events performed on the contained type `T` by a member
function of `Optional`: in-place construction directly from constructor
arguments (`Emplace`), copy construction, move construction, copy assignment,
move assignment, destructor call. -/
inductive Ev
  | ctorDirect
  | ctorCopy
  | ctorMove
  | assignCopy
  | assignMove
  | dtor
  deriving Repr, DecidableEq

/-- State of an `Optional<T>` (src/optional.h lines 154-158):
`data_ = some v` models a live `T` of value `v` constructed in the buffer
(with `value_ptr_` pointing at it); `data_ = none` models a buffer with no
live object (and `value_ptr_ = nullptr`). `is_initialized_` is the flag. -/
structure Optional (T : Type) where
  data_ : Option T
  is_initialized_ : Bool
  deriving Repr, DecidableEq

namespace Optional

variable {T : Type} [Inhabited T]

/-- `Optional() = default;` (line 17): member initializers give
`value_ptr_ = nullptr`, `is_initialized_ = false`, buffer uninitialized. -/
def mkDefault (T : Type) : Optional T :=
  { data_ := none, is_initialized_ := false }

/-- `*value_ptr_` — dereference of the cached pointer. When no live object is
present this is undefined behaviour in C++; modelled as the junk value
`default`. -/
def deref (s : Optional T) : T :=
  s.data_.getD default

/-- `HasValue()` (lines 103-105): returns `is_initialized_`. -/
def HasValue (s : Optional T) : Bool :=
  s.is_initialized_

/-- `operator*` in its `&` and `const &` forms (lines 112-117): returns
`*value_ptr_` with no check. -/
def star (s : Optional T) : T :=
  s.deref

/-- `operator*` in its `&&` form (lines 109-111): returns
`std::move(*value_ptr_)` with no check; at the value level, the contained
value. -/
def starMove (s : Optional T) : T :=
  s.deref

/-- `Value() const &` (lines 138-143): throws `BadOptionalAccess` if
`!is_initialized_`, otherwise returns `*value_ptr_`. -/
def ValueConst (s : Optional T) : Except BadOptionalAccess T :=
  if !s.is_initialized_ then .error ⟨⟩ else .ok s.deref

/-- `Value() &` (lines 132-136): delegates to the `const &` overload via
`const_cast`. -/
def ValueMut (s : Optional T) : Except BadOptionalAccess T :=
  s.ValueConst

/-- `Value() &&` (lines 126-130): delegates to the `const &` overload via
`const_cast`, then moves the result out. -/
def ValueMove (s : Optional T) : Except BadOptionalAccess T :=
  s.ValueConst

/-- `Reset()` (lines 145-152): if `!is_initialized_`, return immediately;
otherwise call `value_ptr_->~T()` (one destructor call on the live object),
set `value_ptr_ = nullptr` and `is_initialized_ = false`. -/
def Reset (s : Optional T) : Optional T × List Ev :=
  if !s.is_initialized_ then (s, [])
  else ({ data_ := none, is_initialized_ := false }, [.dtor])

/-- `~Optional()` (lines 99-101): calls `Reset()`. -/
def destruct (s : Optional T) : Optional T × List Ev :=
  s.Reset

/-- `Optional(const T& value)` (lines 19-24): `new (data_) T(value)` (one copy
construction of `T`), then `is_initialized_ = true`. -/
def fromValueCopy (v : T) : Optional T × List Ev :=
  ({ data_ := some v, is_initialized_ := true }, [.ctorCopy])

/-- `Optional(T&& value)` (lines 26-31): `new (data_) T(std::move(value))`
(one move construction of `T`), then `is_initialized_ = true`. -/
def fromValueMove (v : T) : Optional T × List Ev :=
  ({ data_ := some v, is_initialized_ := true }, [.ctorMove])

/-- Private helper `CopyFrom(const Optional& other)` (lines 160-172): if
`!is_initialized_`, `new (data_) T(*other.value_ptr_)` then set the flag;
otherwise `*value_ptr_ = *other.value_ptr_` (copy assignment of `T`). Only
called with `other` initialized. -/
def CopyFrom (self other : Optional T) : Optional T × List Ev :=
  if !self.is_initialized_ then
    ({ data_ := some other.deref, is_initialized_ := true }, [.ctorCopy])
  else
    ({ self with data_ := some other.deref }, [.assignCopy])

/-- Private helper `MoveFrom(Optional& other)` (lines 174-183): if
`!is_initialized_`, `new (data_) T(std::move(*other.value_ptr_))` then set the
flag; otherwise `*value_ptr_ = std::move(*other.value_ptr_)`. The source's
contained `T` is left in its moved-from state, modelled by the parameter
`residue : T → T`; the source's `is_initialized_` is never touched. Returns
(new self, new other, events). -/
def MoveFrom (residue : T → T) (self other : Optional T) :
    Optional T × Optional T × List Ev :=
  if !self.is_initialized_ then
    ({ data_ := some other.deref, is_initialized_ := true },
     { other with data_ := other.data_.map residue }, [.ctorMove])
  else
    ({ self with data_ := some other.deref },
     { other with data_ := other.data_.map residue }, [.assignMove])

/-- `Optional(const Optional& other)` (lines 33-39): members start at their
default initializers; if `!other.is_initialized_`, return; else
`CopyFrom(other)`. -/
def copyCtor (other : Optional T) : Optional T × List Ev :=
  if !other.is_initialized_ then (mkDefault T, [])
  else CopyFrom (mkDefault T) other

/-- `Optional(Optional&& other)` (lines 41-47): members start at their default
initializers; if `!other.is_initialized_`, return; else `MoveFrom(other)`.
Returns (new self, new other, events). -/
def moveCtor (residue : T → T) (other : Optional T) :
    Optional T × Optional T × List Ev :=
  if !other.is_initialized_ then (mkDefault T, other, [])
  else MoveFrom residue (mkDefault T) other

/-- `operator=(const T& value)` (lines 49-59): if `!is_initialized_`,
`new (data_) T(value)` then set the flag; else `*value_ptr_ = value` (copy
assignment of `T`). -/
def assignValueCopy (self : Optional T) (v : T) : Optional T × List Ev :=
  if !self.is_initialized_ then
    ({ data_ := some v, is_initialized_ := true }, [.ctorCopy])
  else
    ({ self with data_ := some v }, [.assignCopy])

/-- `operator=(T&& value)` (lines 60-70): if `!is_initialized_`,
`new (data_) T(std::move(value))` then set the flag; else
`*value_ptr_ = std::move(value)` (move assignment of `T`). -/
def assignValueMove (self : Optional T) (v : T) : Optional T × List Ev :=
  if !self.is_initialized_ then
    ({ data_ := some v, is_initialized_ := true }, [.ctorMove])
  else
    ({ self with data_ := some v }, [.assignMove])

/-- `operator=(const Optional& rhs)` (lines 71-80): if
`!rhs.is_initialized_`, call `Reset()` when `is_initialized_` (else nothing);
otherwise `CopyFrom(rhs)`. -/
def assignOptCopy (self rhs : Optional T) : Optional T × List Ev :=
  if !rhs.is_initialized_ then
    if self.is_initialized_ then self.Reset else (self, [])
  else CopyFrom self rhs

/-- `operator=(Optional&& rhs)` (lines 81-90): if `!rhs.is_initialized_`,
call `Reset()` when `is_initialized_` (else nothing); otherwise
`MoveFrom(rhs)`. Returns (new self, new rhs, events). -/
def assignOptMove (residue : T → T) (self rhs : Optional T) :
    Optional T × Optional T × List Ev :=
  if !rhs.is_initialized_ then
    if self.is_initialized_ then
      let r := self.Reset
      (r.1, rhs, r.2)
    else (self, rhs, [])
  else MoveFrom residue self rhs

/-- `Emplace(Values&&... values)` (lines 92-97): `Reset()`, then
`new (data_) T(std::forward<Values&&>(values)...)` — the element is
constructed directly from the forwarded arguments, modelled by the
already-evaluated result `v` of that direct construction (event `ctorDirect`,
no copy or move of an already-built `T`) — then `is_initialized_ = true`. -/
def Emplace (self : Optional T) (v : T) : Optional T × List Ev :=
  let r := self.Reset
  ({ r.1 with data_ := some v, is_initialized_ := true }, r.2 ++ [.ctorDirect])

/-! ### Exception-propagating layer

The same member functions, with `T`'s copy constructor, move constructor,
copy/move assignment and direct construction allowed to throw, passed in as
`Except`-valued parameters. A throwing operation makes the member function
return `.error (e, st)` where `st` is the value of the `Optional`'s members at
the moment the exception escapes. On an assignment failure the contained `T`
stays live (its exact `T`-level value is `T`'s concern); the state is kept
unchanged at the `Optional` level. -/

/-- `Optional(const T& value)` (lines 19-24) with a throwing copy constructor
of `T`: if `new (data_) T(value)` throws, the exception escapes before
`is_initialized_ = true` runs, with the members still at their default
initializers. -/
def fromValueCopyE {E : Type} (copyT : T → Except E T) (v : T) :
    Except (E × Optional T) (Optional T) :=
  match copyT v with
  | .error e => .error (e, mkDefault T)
  | .ok t => .ok { data_ := some t, is_initialized_ := true }

/-- `Optional(T&& value)` (lines 26-31) with a throwing move constructor of
`T`: same shape as `fromValueCopyE`. -/
def fromValueMoveE {E : Type} (moveT : T → Except E T) (v : T) :
    Except (E × Optional T) (Optional T) :=
  match moveT v with
  | .error e => .error (e, mkDefault T)
  | .ok t => .ok { data_ := some t, is_initialized_ := true }

/-- `CopyFrom` (lines 160-172) with throwing copy constructor / copy
assignment of `T`: in the construct branch a throw escapes before the flag is
set (members unchanged); in the assign branch a throw leaves the existing
live element in place (state unchanged at the `Optional` level). -/
def CopyFromE {E : Type} (copyT : T → Except E T)
    (copyAssignT : T → T → Except E T) (self other : Optional T) :
    Except (E × Optional T) (Optional T) :=
  if !self.is_initialized_ then
    match copyT other.deref with
    | .error e => .error (e, self)
    | .ok t => .ok { data_ := some t, is_initialized_ := true }
  else
    match copyAssignT self.deref other.deref with
    | .error e => .error (e, self)
    | .ok t => .ok { self with data_ := some t }

/-- `MoveFrom` (lines 174-183) with throwing move constructor / move
assignment of `T` (the target's state only; source mutation is tracked in the
total layer). -/
def MoveFromE {E : Type} (moveT : T → Except E T)
    (moveAssignT : T → T → Except E T) (self other : Optional T) :
    Except (E × Optional T) (Optional T) :=
  if !self.is_initialized_ then
    match moveT other.deref with
    | .error e => .error (e, self)
    | .ok t => .ok { data_ := some t, is_initialized_ := true }
  else
    match moveAssignT self.deref other.deref with
    | .error e => .error (e, self)
    | .ok t => .ok { self with data_ := some t }

/-- `Optional(const Optional& other)` (lines 33-39) with a throwing copy
constructor of `T`: members start at their defaults; empty source returns
immediately, else `CopyFrom(other)` (whose construct branch runs, `this`
being empty). -/
def copyCtorE {E : Type} (copyT : T → Except E T)
    (copyAssignT : T → T → Except E T) (other : Optional T) :
    Except (E × Optional T) (Optional T) :=
  if !other.is_initialized_ then .ok (mkDefault T)
  else CopyFromE copyT copyAssignT (mkDefault T) other

/-- `Optional(Optional&& other)` (lines 41-47) with a throwing move
constructor of `T`. -/
def moveCtorE {E : Type} (moveT : T → Except E T)
    (moveAssignT : T → T → Except E T) (other : Optional T) :
    Except (E × Optional T) (Optional T) :=
  if !other.is_initialized_ then .ok (mkDefault T)
  else MoveFromE moveT moveAssignT (mkDefault T) other

/-- `operator=(const T& value)` (lines 49-59) with throwing copy constructor /
copy assignment of `T`. -/
def assignValueCopyE {E : Type} (copyT : T → Except E T)
    (copyAssignT : T → T → Except E T) (self : Optional T) (v : T) :
    Except (E × Optional T) (Optional T) :=
  if !self.is_initialized_ then
    match copyT v with
    | .error e => .error (e, self)
    | .ok t => .ok { data_ := some t, is_initialized_ := true }
  else
    match copyAssignT self.deref v with
    | .error e => .error (e, self)
    | .ok t => .ok { self with data_ := some t }

/-- `operator=(T&& value)` (lines 60-70) with throwing move constructor /
move assignment of `T`. -/
def assignValueMoveE {E : Type} (moveT : T → Except E T)
    (moveAssignT : T → T → Except E T) (self : Optional T) (v : T) :
    Except (E × Optional T) (Optional T) :=
  if !self.is_initialized_ then
    match moveT v with
    | .error e => .error (e, self)
    | .ok t => .ok { data_ := some t, is_initialized_ := true }
  else
    match moveAssignT self.deref v with
    | .error e => .error (e, self)
    | .ok t => .ok { self with data_ := some t }

/-- `operator=(const Optional& rhs)` (lines 71-80) with throwing `T`
operations: `Reset` itself never throws. -/
def assignOptCopyE {E : Type} (copyT : T → Except E T)
    (copyAssignT : T → T → Except E T) (self rhs : Optional T) :
    Except (E × Optional T) (Optional T) :=
  if !rhs.is_initialized_ then
    .ok (if self.is_initialized_ then self.Reset.1 else self)
  else CopyFromE copyT copyAssignT self rhs

/-- `operator=(Optional&& rhs)` (lines 81-90) with throwing `T` operations. -/
def assignOptMoveE {E : Type} (moveT : T → Except E T)
    (moveAssignT : T → T → Except E T) (self rhs : Optional T) :
    Except (E × Optional T) (Optional T) :=
  if !rhs.is_initialized_ then
    .ok (if self.is_initialized_ then self.Reset.1 else self)
  else MoveFromE moveT moveAssignT self rhs

/-- `Emplace` (lines 92-97) with a throwing direct construction of `T`
(result `mkT`): after the unconditional `Reset()`, a throw from
`new (data_) T(...)` escapes before `is_initialized_ = true`, with the members
as `Reset` left them. -/
def EmplaceE {E : Type} (mkT : Except E T) (self : Optional T) :
    Except (E × Optional T) (Optional T) :=
  let s1 := self.Reset.1
  match mkT with
  | .error e => .error (e, s1)
  | .ok t => .ok { s1 with data_ := some t, is_initialized_ := true }

end Optional

/-! ### State machine and operation sequences (spec §4.1) -/

/-- The class invariant of `Optional<T>`: `is_initialized_` is set exactly
when the buffer holds a live, fully-constructed `T`. -/
def Inv {T : Type} (s : Optional T) : Prop :=
  s.is_initialized_ = s.data_.isSome

instance {T : Type} [DecidableEq T] (s : Optional T) : Decidable (Inv s) := by
  unfold Inv
  infer_instance

/-- The two abstract states of spec §4.1. -/
inductive SState
  | Empty
  | Occupied
  deriving Repr, DecidableEq

/-- Abstraction of a concrete `Optional` state to the §4.1 state. -/
def stateOf {T : Type} (s : Optional T) : SState :=
  if s.is_initialized_ then .Occupied else .Empty

/-- The mutating operations of `Optional<T>`, as data, so that arbitrary
operation sequences can be quantified over. Container arguments of the
container-assignment operations are embedded as concrete states. -/
inductive Op (T : Type)
  | reset
  | destruct
  | emplace (v : T)
  | assignValCopy (v : T)
  | assignValMove (v : T)
  | assignOptCopy (rhs : Optional T)
  | assignOptMove (rhs : Optional T)
  deriving Repr

/-- Run one operation on a container state (discarding events and, for moves,
the source's post-state). -/
def applyOp {T : Type} [Inhabited T] (residue : T → T) (s : Optional T) :
    Op T → Optional T
  | .reset => s.Reset.1
  | .destruct => s.destruct.1
  | .emplace v => (s.Emplace v).1
  | .assignValCopy v => (s.assignValueCopy v).1
  | .assignValMove v => (s.assignValueMove v).1
  | .assignOptCopy rhs => (Optional.assignOptCopy s rhs).1
  | .assignOptMove rhs => (Optional.assignOptMove residue s rhs).1

/-- Run a sequence of operations. -/
def run {T : Type} [Inhabited T] (residue : T → T) (s : Optional T)
    (ops : List (Op T)) : Optional T :=
  ops.foldl (applyOp residue) s

/-- The §4.1 transition function: the predicted abstract state after one
operation. `Reset` and destruction go to Empty; `Emplace` and value
assignment go to Occupied; container assignment goes to the occupancy of the
source. -/
def predictOp {T : Type} : SState → Op T → SState
  | _, .reset => .Empty
  | _, .destruct => .Empty
  | _, .emplace _ => .Occupied
  | _, .assignValCopy _ => .Occupied
  | _, .assignValMove _ => .Occupied
  | _, .assignOptCopy rhs => stateOf rhs
  | _, .assignOptMove rhs => stateOf rhs

/-- Predicted abstract state after a sequence of operations. -/
def predictRun {T : Type} (st : SState) (ops : List (Op T)) : SState :=
  ops.foldl predictOp st

/-- The exception carried by a failed member-function run, if any. -/
def errOf {T E : Type} : Except (E × Optional T) (Optional T) → Option E
  | .ok _ => none
  | .error (e, _) => some e

/-- The exception carried by a failed `T`-level operation, if any. -/
def errOfT {E A : Type} : Except E A → Option E
  | .ok _ => none
  | .error e => some e

/-- Consistency of a member function's outcome relative to the pre-operation
state `pre`: when an exception escapes, the container either still reflects
its pre-operation contents or is empty (never half-constructed), and the
class invariant is preserved — in particular the presence flag is never true
over a non-live object. -/
def ConsistentOnError {T E : Type} (pre : Optional T) :
    Except (E × Optional T) (Optional T) → Prop
  | .ok _ => True
  | .error r =>
      (r.2 = pre ∨ (r.2.is_initialized_ = false ∧ r.2.data_ = none)) ∧
      (Inv pre → Inv r.2)

/-- A stronger outcome: when an exception escapes, the presence flag is false
and the storage holds no live object. -/
def EmptyOnError {T E : Type} :
    Except (E × Optional T) (Optional T) → Prop
  | .ok _ => True
  | .error r => r.2.is_initialized_ = false ∧ r.2.data_ = none

/-- When an exception escapes, the presence flag is false. -/
def FlagFalseOnError {T E : Type} :
    Except (E × Optional T) (Optional T) → Prop
  | .ok _ => True
  | .error r => r.2.is_initialized_ = false

/-! ### Helper lemmas -/

theorem applyOp_inv {T : Type} [Inhabited T] (residue : T → T)
    (s : Optional T) (o : Op T) (h : Inv s) :
    Inv (applyOp residue s o) ∧
      stateOf (applyOp residue s o) = predictOp (stateOf s) o := by
  cases o with
  | reset =>
      cases hs : s.is_initialized_ <;>
        simp_all [applyOp, Optional.Reset, Inv, stateOf, predictOp]
  | destruct =>
      cases hs : s.is_initialized_ <;>
        simp_all [applyOp, Optional.destruct, Optional.Reset, Inv, stateOf,
          predictOp]
  | emplace v =>
      cases hs : s.is_initialized_ <;>
        simp_all [applyOp, Optional.Emplace, Optional.Reset, Inv, stateOf,
          predictOp]
  | assignValCopy v =>
      cases hs : s.is_initialized_ <;>
        simp_all [applyOp, Optional.assignValueCopy, Inv, stateOf, predictOp]
  | assignValMove v =>
      cases hs : s.is_initialized_ <;>
        simp_all [applyOp, Optional.assignValueMove, Inv, stateOf, predictOp]
  | assignOptCopy rhs =>
      cases hr : rhs.is_initialized_ <;> cases hs : s.is_initialized_ <;>
        simp_all [applyOp, Optional.assignOptCopy, Optional.CopyFrom,
          Optional.Reset, Inv, stateOf, predictOp]
  | assignOptMove rhs =>
      cases hr : rhs.is_initialized_ <;> cases hs : s.is_initialized_ <;>
        simp_all [applyOp, Optional.assignOptMove, Optional.MoveFrom,
          Optional.Reset, Inv, stateOf, predictOp]

theorem run_inv {T : Type} [Inhabited T] (residue : T → T)
    (ops : List (Op T)) (s : Optional T) (h : Inv s) :
    Inv (run residue s ops) ∧
      stateOf (run residue s ops) = predictRun (stateOf s) ops := by
  induction ops generalizing s with
  | nil => exact ⟨h, rfl⟩
  | cons o ops ih =>
      have h1 := applyOp_inv residue s o h
      have h2 := ih (applyOp residue s o) h1.1
      refine ⟨h2.1, ?_⟩
      show stateOf (run residue (applyOp residue s o) ops) =
        predictRun (predictOp (stateOf s) o) ops
      rw [← h1.2]
      exact h2.2

/-! ### Claim theorems -/

/-- C1: for every element type `T`, every construction (default, from a
value, copy, move) establishes the class invariant `Inv` (the presence flag
is true exactly when the storage holds one live, fully-constructed `T`) and
lands in the §4.1 state the state machine predicts; and along every sequence
of mutating operations started from any invariant-satisfying state, the
invariant is preserved and the abstract Empty/Occupied state after the
sequence equals the state machine's prediction (quantifying over all `ops`
covers every prefix, i.e. the observation after each operation), so
`HasValue` is true exactly when the storage holds a live `T`. -/
theorem C1_state_machine_and_invariant {T : Type} [Inhabited T]
    (residue : T → T) (v : T) (other s0 : Optional T) (ops : List (Op T))
    (h : Inv s0) :
    (Inv (Optional.mkDefault T) ∧ stateOf (Optional.mkDefault T) = .Empty) ∧
    (Inv (Optional.fromValueCopy v).1 ∧
      stateOf (Optional.fromValueCopy v).1 = .Occupied) ∧
    (Inv (Optional.fromValueMove v).1 ∧
      stateOf (Optional.fromValueMove v).1 = .Occupied) ∧
    (Inv (Optional.copyCtor other).1 ∧
      stateOf (Optional.copyCtor other).1 = stateOf other) ∧
    (Inv (Optional.moveCtor residue other).1 ∧
      stateOf (Optional.moveCtor residue other).1 = stateOf other) ∧
    (Inv (run residue s0 ops) ∧
      stateOf (run residue s0 ops) = predictRun (stateOf s0) ops) ∧
    (Optional.HasValue (run residue s0 ops) = true ↔
      (run residue s0 ops).data_.isSome = true) := by
  refine ⟨⟨rfl, rfl⟩, ⟨rfl, rfl⟩, ⟨rfl, rfl⟩, ?_, ?_, run_inv residue ops s0 h, ?_⟩
  · cases ho : other.is_initialized_ <;>
      simp_all [Optional.copyCtor, Optional.CopyFrom, Optional.mkDefault,
        Inv, stateOf]
  · cases ho : other.is_initialized_ <;>
      simp_all [Optional.moveCtor, Optional.MoveFrom, Optional.mkDefault,
        Inv, stateOf]
  · have h1 := (run_inv residue ops s0 h).1
    unfold Inv at h1
    unfold Optional.HasValue
    rw [h1]

/-- Witness for C1 at `T = Nat`, starting from the default-constructed state
and running `Emplace(7)` then `Reset()`. -/
theorem C1_state_machine_and_invariant_witness :
    Inv (Optional.mkDefault Nat) ∧
    (Inv (run id (Optional.mkDefault Nat) [Op.emplace 7, Op.reset]) ∧
      stateOf (run id (Optional.mkDefault Nat) [Op.emplace 7, Op.reset]) =
        predictRun (stateOf (Optional.mkDefault Nat)) [Op.emplace 7, Op.reset]) :=
  ⟨by decide,
    (C1_state_machine_and_invariant id 5 (Optional.mkDefault Nat)
      (Optional.mkDefault Nat) [Op.emplace 7, Op.reset] (by decide)).2.2.2.2.2.1⟩

/-- C2: `Value()` on an empty container returns the `BadOptionalAccess`
error in all three reference/ownership forms (a pure read: the state is not
modified, so the container remains empty), and on a non-empty container all
three forms return exactly what the unchecked accessor `operator*` returns;
the `&` and `&&` forms coincide with the `const &` form. -/
theorem C2_checked_access {T : Type} [Inhabited T] (s : Optional T) :
    (Optional.ValueConst s =
      if s.HasValue then Except.ok (Optional.star s)
      else Except.error ⟨⟩) ∧
    (Optional.ValueMut s =
      if s.HasValue then Except.ok (Optional.star s)
      else Except.error ⟨⟩) ∧
    (Optional.ValueMove s =
      if s.HasValue then Except.ok (Optional.starMove s)
      else Except.error ⟨⟩) := by
  cases hs : s.is_initialized_ <;>
    simp_all [Optional.ValueConst, Optional.ValueMut, Optional.ValueMove,
      Optional.HasValue, Optional.star, Optional.starMove]

/-- C3: every element-constructing path (construction from a value by copy or
move, copy/move construction from another container, the construct-if-empty
branches of value and container assignment, `Emplace`) propagates a failure
of `T`'s constructor unchanged (`errOf` equals the `T`-level error) and
leaves the container consistent: construction from a value and copy/move
construction leave the members at their empty defaults; assignments leave the
container either at its pre-operation state or empty, preserving the
invariant (never `present == true` over a non-live object); `Emplace` leaves
the presence flag false when the in-place construction fails. -/
theorem C3_strong_error_safety {T E : Type} [Inhabited T]
    (copyT moveT : T → Except E T) (copyAssignT moveAssignT : T → T → Except E T)
    (mkT : Except E T) (v : T) (self other : Optional T) :
    (errOf (Optional.fromValueCopyE copyT v) = errOfT (copyT v)) ∧
    EmptyOnError (Optional.fromValueCopyE copyT v) ∧
    (errOf (Optional.fromValueMoveE moveT v) = errOfT (moveT v)) ∧
    EmptyOnError (Optional.fromValueMoveE moveT v) ∧
    EmptyOnError (Optional.copyCtorE copyT copyAssignT other) ∧
    EmptyOnError (Optional.moveCtorE moveT moveAssignT other) ∧
    ConsistentOnError self (Optional.assignValueCopyE copyT copyAssignT self v) ∧
    ConsistentOnError self (Optional.assignValueMoveE moveT moveAssignT self v) ∧
    ConsistentOnError self (Optional.assignOptCopyE copyT copyAssignT self other) ∧
    ConsistentOnError self (Optional.assignOptMoveE moveT moveAssignT self other) ∧
    ConsistentOnError self (Optional.EmplaceE mkT self) ∧
    FlagFalseOnError (Optional.EmplaceE mkT self) ∧
    (errOf (Optional.EmplaceE mkT self) = errOfT mkT) := by
  refine ⟨?_, ?_, ?_, ?_, ?_, ?_, ?_, ?_, ?_, ?_, ?_, ?_, ?_⟩
  · cases h : copyT v <;>
      simp [Optional.fromValueCopyE, errOf, errOfT, h]
  · cases h : copyT v <;>
      simp [Optional.fromValueCopyE, EmptyOnError, Optional.mkDefault, h]
  · cases h : moveT v <;>
      simp [Optional.fromValueMoveE, errOf, errOfT, h]
  · cases h : moveT v <;>
      simp [Optional.fromValueMoveE, EmptyOnError, Optional.mkDefault, h]
  · cases ho : other.is_initialized_
    · simp [Optional.copyCtorE, EmptyOnError, ho]
    · cases h : copyT other.deref <;>
        simp [Optional.copyCtorE, Optional.CopyFromE, EmptyOnError,
          Optional.mkDefault, ho, h]
  · cases ho : other.is_initialized_
    · simp [Optional.moveCtorE, EmptyOnError, ho]
    · cases h : moveT other.deref <;>
        simp [Optional.moveCtorE, Optional.MoveFromE, EmptyOnError,
          Optional.mkDefault, ho, h]
  · cases hs : self.is_initialized_
    · cases h : copyT v <;>
        simp [Optional.assignValueCopyE, ConsistentOnError, hs, h]
    · cases h : copyAssignT self.deref v <;>
        simp [Optional.assignValueCopyE, ConsistentOnError, hs, h]
  · cases hs : self.is_initialized_
    · cases h : moveT v <;>
        simp [Optional.assignValueMoveE, ConsistentOnError, hs, h]
    · cases h : moveAssignT self.deref v <;>
        simp [Optional.assignValueMoveE, ConsistentOnError, hs, h]
  · cases ho : other.is_initialized_
    · simp [Optional.assignOptCopyE, ConsistentOnError, ho]
    · cases hs : self.is_initialized_
      · cases h : copyT other.deref <;>
          simp [Optional.assignOptCopyE, Optional.CopyFromE,
            ConsistentOnError, ho, hs, h]
      · cases h : copyAssignT self.deref other.deref <;>
          simp [Optional.assignOptCopyE, Optional.CopyFromE,
            ConsistentOnError, ho, hs, h]
  · cases ho : other.is_initialized_
    · simp [Optional.assignOptMoveE, ConsistentOnError, ho]
    · cases hs : self.is_initialized_
      · cases h : moveT other.deref <;>
          simp [Optional.assignOptMoveE, Optional.MoveFromE,
            ConsistentOnError, ho, hs, h]
      · cases h : moveAssignT self.deref other.deref <;>
          simp [Optional.assignOptMoveE, Optional.MoveFromE,
            ConsistentOnError, ho, hs, h]
  · cases h : mkT <;> cases hs : self.is_initialized_ <;>
      simp_all [Optional.EmplaceE, Optional.Reset, ConsistentOnError, Inv, h]
  · cases h : mkT <;> cases hs : self.is_initialized_ <;>
      simp_all [Optional.EmplaceE, Optional.Reset, FlagFalseOnError, h]
  · cases h : mkT <;>
      simp [Optional.EmplaceE, errOf, errOfT, h]

/-- C4: value assignment (copy and move) always leaves the container
non-empty holding the assigned value; on an empty container the event trace
is exactly one `T` construction (so the flag is set after constructing), and
on an occupied container it is exactly one `T` assignment into the existing
element — no destruction and no construction. -/
theorem C4_assign_value {T : Type} [Inhabited T] (s : Optional T) (v : T) :
    ((s.assignValueCopy v).1.HasValue = true) ∧
    (Optional.star (s.assignValueCopy v).1 = v) ∧
    ((s.assignValueCopy v).2 =
      if s.HasValue then [Ev.assignCopy] else [Ev.ctorCopy]) ∧
    ((s.assignValueMove v).1.HasValue = true) ∧
    (Optional.star (s.assignValueMove v).1 = v) ∧
    ((s.assignValueMove v).2 =
      if s.HasValue then [Ev.assignMove] else [Ev.ctorMove]) := by
  cases hs : s.is_initialized_ <;>
    simp_all [Optional.assignValueCopy, Optional.assignValueMove,
      Optional.HasValue, Optional.star, Optional.deref]

/-- C5: constructing from a value yields an occupied container whose checked
access returns that value (for both the copy and the move overload); copy
construction from an empty container yields an empty container with no
element operation performed, and from an occupied one performs exactly one
copy construction of the source's contained value and sets the flag. -/
theorem C5_construction {T : Type} [Inhabited T] (v : T) (other : Optional T) :
    ((Optional.fromValueCopy v).1.HasValue = true) ∧
    (Optional.ValueConst (Optional.fromValueCopy v).1 = .ok v) ∧
    ((Optional.fromValueMove v).1.HasValue = true) ∧
    (Optional.ValueConst (Optional.fromValueMove v).1 = .ok v) ∧
    ((Optional.copyCtor other).1.HasValue = other.HasValue) ∧
    ((Optional.copyCtor other).2 =
      if other.HasValue then [Ev.ctorCopy] else []) ∧
    ((Optional.copyCtor other).1.data_ =
      if other.HasValue then some other.deref else none) := by
  cases ho : other.is_initialized_ <;>
    simp_all [Optional.fromValueCopy, Optional.fromValueMove,
      Optional.copyCtor, Optional.CopyFrom, Optional.mkDefault,
      Optional.ValueConst, Optional.HasValue, Optional.deref]

/-- C7: `Reset()` on an empty container returns it unchanged with no events
(idempotent no-op, no error); on an occupied container it produces the empty
state with exactly one destructor call; `Reset` after `Reset` is always a
no-op; and the destructor is exactly `Reset`. -/
theorem C7_reset_and_destruction {T : Type} [Inhabited T] (s : Optional T) :
    (Optional.Reset s =
      if s.HasValue then (Optional.mkDefault T, [Ev.dtor]) else (s, [])) ∧
    (Optional.Reset (Optional.Reset s).1 = ((Optional.Reset s).1, [])) ∧
    (Optional.destruct s = Optional.Reset s) := by
  cases hs : s.is_initialized_ <;>
    simp_all [Optional.Reset, Optional.destruct, Optional.mkDefault,
      Optional.HasValue]

/-- C8: `Emplace` always ends occupied holding exactly the directly
constructed value; the event trace is one destructor call (exactly when the
container was occupied, destroying the old value first) followed by one
direct in-place construction, with no copy or move of an already-built `T`
(no intermediate temporary). -/
theorem C8_emplace {T : Type} [Inhabited T] (s : Optional T) (v : T) :
    ((s.Emplace v).1 = { data_ := some v, is_initialized_ := true }) ∧
    ((s.Emplace v).2 =
      (if s.HasValue then [Ev.dtor] else []) ++ [Ev.ctorDirect]) ∧
    ((s.Emplace v).2.count Ev.dtor = if s.HasValue then 1 else 0) ∧
    ((s.Emplace v).2.count Ev.ctorCopy = 0) ∧
    ((s.Emplace v).2.count Ev.ctorMove = 0) := by
  cases hs : s.is_initialized_ <;>
    simp_all [Optional.Emplace, Optional.Reset, Optional.HasValue,
      List.count_cons, List.count_nil]

/-- C6: container assignment (copy and move) from an empty source leaves the
target at the empty default state; the event trace is exactly one destructor
call when the target held a value (counting exactly one destruction) and
empty when the target was already empty (a no-op); the move overload leaves
the empty source untouched. -/
theorem C6_assign_from_empty_source {T : Type} [Inhabited T] (residue : T → T)
    (s rhs : Optional T) (hs : Inv s) (hr : rhs.HasValue = false) :
    ((Optional.assignOptCopy s rhs).1 = Optional.mkDefault T) ∧
    ((Optional.assignOptCopy s rhs).2 =
      if s.HasValue then [Ev.dtor] else []) ∧
    ((Optional.assignOptCopy s rhs).2.count Ev.dtor =
      if s.HasValue then 1 else 0) ∧
    ((Optional.assignOptMove residue s rhs).1 = Optional.mkDefault T) ∧
    ((Optional.assignOptMove residue s rhs).2.1 = rhs) ∧
    ((Optional.assignOptMove residue s rhs).2.2 =
      if s.HasValue then [Ev.dtor] else []) := by
  obtain ⟨d, b⟩ := s
  cases b <;> cases d <;>
    simp_all [Optional.assignOptCopy, Optional.assignOptMove, Optional.Reset,
      Optional.mkDefault, Optional.HasValue, Inv]

/-- Witness for C6: assigning an empty container into `Optional<Nat>` holding
`3` empties the target. -/
theorem C6_assign_from_empty_source_witness :
    Inv (⟨some 3, true⟩ : Optional Nat) ∧
    (Optional.mkDefault Nat).HasValue = false ∧
    (Optional.assignOptCopy (⟨some 3, true⟩ : Optional Nat)
      (Optional.mkDefault Nat)).1 = Optional.mkDefault Nat :=
  ⟨by decide, by decide,
    (C6_assign_from_empty_source id (⟨some 3, true⟩ : Optional Nat)
      (Optional.mkDefault Nat) (by decide) (by decide)).1⟩

/-- C9: move construction and move assignment from an occupied source leave
the source's presence flag set — the source still reports `HasValue() ==
true` — and the source's storage holds the moved-from residue of its `T`
value; the source is not forced to become empty. -/
theorem C9_move_source_stays_occupied {T : Type} [Inhabited T]
    (residue : T → T) (s other rhs : Optional T)
    (ho : other.HasValue = true) (hr : rhs.HasValue = true) :
    ((Optional.moveCtor residue other).2.1.HasValue = true) ∧
    ((Optional.moveCtor residue other).2.1.data_ = other.data_.map residue) ∧
    ((Optional.assignOptMove residue s rhs).2.1.HasValue = true) ∧
    ((Optional.assignOptMove residue s rhs).2.1.data_ =
      rhs.data_.map residue) := by
  cases hsb : s.is_initialized_ <;>
    simp_all [Optional.moveCtor, Optional.MoveFrom, Optional.assignOptMove,
      Optional.HasValue, Optional.mkDefault]

/-- Witness for C9: move-constructing from `Optional<Nat>` holding `3` leaves
the source still occupied. -/
theorem C9_move_source_stays_occupied_witness :
    (⟨some 3, true⟩ : Optional Nat).HasValue = true ∧
    (Optional.moveCtor id (⟨some 3, true⟩ : Optional Nat)).2.1.HasValue
      = true :=
  ⟨by decide,
    (C9_move_source_stays_occupied id (Optional.mkDefault Nat)
      (⟨some 3, true⟩ : Optional Nat) (⟨some 3, true⟩ : Optional Nat)
      (by decide) (by decide)).1⟩

/-- C10: self-copy-assignment `c = c` on any invariant-satisfying container
returns the container unchanged; on an empty container no element operation
is performed, and on an occupied one the event trace is exactly one copy
assignment of `T` onto itself — no destruction and no construction. -/
theorem C10_self_assignment {T : Type} [Inhabited T] (s : Optional T)
    (h : Inv s) :
    ((Optional.assignOptCopy s s).1 = s) ∧
    ((Optional.assignOptCopy s s).2 =
      if s.HasValue then [Ev.assignCopy] else []) := by
  obtain ⟨d, b⟩ := s
  cases b <;> cases d <;>
    simp_all [Optional.assignOptCopy, Optional.CopyFrom, Optional.Reset,
      Optional.HasValue, Optional.deref, Inv]

/-- Witness for C10: self-assigning `Optional<Nat>` holding `3` leaves it
unchanged. -/
theorem C10_self_assignment_witness :
    Inv (⟨some 3, true⟩ : Optional Nat) ∧
    (Optional.assignOptCopy (⟨some 3, true⟩ : Optional Nat)
      (⟨some 3, true⟩ : Optional Nat)).1 = (⟨some 3, true⟩ : Optional Nat) :=
  ⟨by decide,
    (C10_self_assignment (⟨some 3, true⟩ : Optional Nat) (by decide)).1⟩

end Spec2Proof
